import Mathlib

/-!
Verification of the Access Policy Evaluation & Approval Lifecycle Engine
of the access_management_automation repository.

The repository ships the declarative policy schema (`access_policies.txt`),
a concrete policy instance (`access_policies.json`) and the Angular client
(`README.md` embeds `AccessRequestFormComponent`; the unnamed source file
holds `AccessRequestListComponent`).  The engine itself (resolver,
condition evaluator, approval workflow, lifecycle scheduler, audit
emitter) is specified in spec.md but its implementation is not part of the
source tree, so those parts are modelled from the spec, as marked on each
definition.  Times are measured in minutes throughout; a duration string
such as "30d" is 30 * 1440 = 43200 minutes.
-/

set_option maxHeartbeats 1000000

/-- Modelled from the spec: the error kinds of §7 that the engine can
surface (`PolicyNotFound`, `RoleNotFound`, `InheritanceCycle`,
`ConditionNotSatisfied`, `DuplicateDecision`, `StaleApprovalStep`,
`ProvisioningFailed`, `AuditWriteFailed`). -/
inductive EngineError where
  | PolicyNotFound
  | RoleNotFound
  | InheritanceCycle
  | ConditionNotSatisfied
  | DuplicateDecision
  | StaleApprovalStep
  | ProvisioningFailed
  | AuditWriteFailed
deriving DecidableEq, Repr

/-- Time-based access window from the policy schema
(`access_policies.txt`, `time_restrictions`): start/end minute of day,
timezone offset in minutes, allowed weekdays (0 = Monday .. 6 = Sunday). -/
structure TimeRestriction where
  start_minute : Nat
  end_minute : Nat
  tz_offset_minutes : Int
  days_of_week : List Nat
deriving DecidableEq, Repr, Inhabited

/-- An IPv4 CIDR block from the policy schema
(`access_policies.txt`, `ip_restrictions`): base address as a number and
the number of mask bits. -/
structure Cidr where
  baseAddr : Nat
  maskBits : Nat
deriving DecidableEq, Repr, Inhabited

/-- One condition block of the policy schema (`access_policies.txt`,
`conditions`): a conjunctive predicate over request attributes; every
field is optional and an unset field is a wildcard. -/
structure Condition where
  department : Option String := none
  data_sensitivity : Option String := none
  location : Option String := none
  job_level : Option String := none
  contract_type : Option String := none
  security_clearance : Option String := none
  time_restrictions : Option TimeRestriction := none
  ip_restrictions : Option (List Cidr) := none
  mfa_required : Option Bool := none
  justification_required : Option Bool := none
deriving DecidableEq, Repr, Inhabited

/-- Modelled from the spec: the requester attributes supplied by the
identity/attribute source (§6) that condition blocks are matched against. -/
structure RequestAttributes where
  department : String
  data_sensitivity : String
  location : String
  job_level : String
  contract_type : String
  security_clearance : String
  source_ip : Nat
deriving DecidableEq, Repr

/-- An optional string field matches when unset (wildcard) or exactly
equal to the request's value (spec §4.2: string fields use exact match). -/
def matchOptS (o : Option String) (v : String) : Bool :=
  match o with
  | none => true
  | some s => s == v

/-- Modelled from the spec (§4.2): the request time falls within
[start, end) in the window's timezone and its weekday is in
`days_of_week`.  `t` is in UTC minutes counted from a Monday midnight. -/
def inWindow (tr : TimeRestriction) (t : Nat) : Bool :=
  let lm : Int := (t : Int) + tr.tz_offset_minutes
  let minuteOfDay : Int := lm.emod 1440
  let weekday : Int := (lm.ediv 1440).emod 7
  decide ((tr.start_minute : Int) ≤ minuteOfDay) &&
  decide (minuteOfDay < (tr.end_minute : Int)) &&
  tr.days_of_week.any (fun d => (d : Int) == weekday)

/-- An IPv4 address is contained in a CIDR block when it agrees with the
base address on the first `maskBits` bits. -/
def cidrContains (c : Cidr) (ip : Nat) : Bool :=
  ip / 2 ^ (32 - c.maskBits) == c.baseAddr / 2 ^ (32 - c.maskBits)

/-- Modelled from the spec (§4.2): a request satisfies a condition block
when every populated field matches (AND); unset fields always match. -/
def matchesCondition (c : Condition) (a : RequestAttributes) (t : Nat) : Bool :=
  matchOptS c.department a.department &&
  matchOptS c.data_sensitivity a.data_sensitivity &&
  matchOptS c.location a.location &&
  matchOptS c.job_level a.job_level &&
  matchOptS c.contract_type a.contract_type &&
  matchOptS c.security_clearance a.security_clearance &&
  (match c.time_restrictions with
   | none => true
   | some tr => inWindow tr t) &&
  (match c.ip_restrictions with
   | none => true
   | some cidrs => cidrs.any (fun cd => cidrContains cd a.source_ip))

/-- Index of the first condition block (in declaration order) that the
request satisfies, if any. -/
def firstMatchIdx (a : RequestAttributes) (t : Nat) : List Condition → Option Nat
  | [] => none
  | c :: rest =>
    if matchesCondition c a t then some 0
    else (firstMatchIdx a t rest).map (· + 1)

/-- Modelled from the spec (§4.1): a role with inheritance expanded into a
flattened permission set and flattened condition-block list. -/
structure ResolvedRole where
  permissions : List String
  conditions : List Condition
deriving DecidableEq, Repr

/-- Modelled from the spec (§4.2): the result of condition evaluation. -/
structure EvalResult where
  matched : Bool
  matchedBlockIndex : Option Nat
  requiresMFA : Bool
  requiresJustification : Bool
deriving DecidableEq, Repr

/-- Modelled from the spec (§4.2): evaluates each condition block in
order and returns the first block where every populated field matches; a
role with zero condition blocks matches unconditionally; if no block
matches the result is `matched = false`. -/
def evaluate (rr : ResolvedRole) (a : RequestAttributes) (t : Nat) : EvalResult :=
  match rr.conditions with
  | [] => ⟨true, none, false, false⟩
  | cs =>
    match firstMatchIdx a t cs with
    | some i =>
      let c := cs.getD i default
      ⟨true, some i, c.mfa_required.getD false, c.justification_required.getD false⟩
    | none => ⟨false, none, false, false⟩

/-- Role inheritance settings from the policy schema
(`access_policies.txt`, `inheritance`): parent role names and whether
the parents' permissions are inherited. -/
structure Inheritance where
  parent_roles : List String
  inherit_permissions : Bool
deriving DecidableEq, Repr

/-- A role from the policy schema (`access_policies.txt`, `roles`): a
name, a permission set, zero or more condition blocks (OR-ed) and
optional inheritance. -/
structure Role where
  name : String
  permissions : List String
  conditions : List Condition
  inheritance : Option Inheritance
deriving DecidableEq, Repr

/-- One approver of the approval workflow
(`access_policies.txt`, `approvers`). -/
structure Approver where
  type : String
  value : String
  order : Nat
deriving DecidableEq, Repr

/-- One auto-approval rule
(`access_policies.txt`, `auto_approve_conditions`): optional attribute
predicates and a duration ceiling in minutes. -/
structure AutoApproveRule where
  department : Option String := none
  data_sensitivity : Option String := none
  request_duration : Nat
deriving DecidableEq, Repr

/-- The approval workflow of a policy
(`access_policies.txt`, `approval_workflow`). -/
structure ApprovalWorkflow where
  approval_required : Bool
  approvers : List Approver
  auto_approve_conditions : List AutoApproveRule
deriving DecidableEq, Repr

/-- A policy from the schema (`access_policies.txt`): a resource, its
roles, the approval workflow, the default access duration in minutes,
the renewal cap and the enabled flag. -/
structure Policy where
  resource : String
  roles : List Role
  approval_workflow : ApprovalWorkflow
  access_duration : Nat
  max_renewals : Nat
  enabled : Bool
deriving DecidableEq, Repr

/-- Look a role up by name inside a policy's role list. -/
def findRole (roles : List Role) (n : String) : Option Role :=
  roles.find? (fun r => r.name == n)

/-- Modelled from the spec (§4.1, §9): graph traversal with a visited-set
cycle guard that expands a role's inheritance into a flattened permission
set and condition-block list.  Parents are only traversed when
`inherit_permissions` is true; parent condition blocks are appended after
the role's own.  Fuel bounds the traversal depth; on acyclic graphs the
fuel chosen by `resolveRole` is never exhausted along a path because the
visited set grows at every step. -/
def resolveOne (roles : List Role) : Nat → List String → String →
    Except EngineError (List String × List Condition)
  | 0, _, _ => .error .InheritanceCycle
  | fuel + 1, visited, name =>
    if visited.contains name then .error .InheritanceCycle
    else
      match findRole roles name with
      | none => .error .RoleNotFound
      | some r =>
        match r.inheritance with
        | none => .ok (r.permissions, r.conditions)
        | some inh =>
          if inh.inherit_permissions then
            match inh.parent_roles.foldl
              (fun (acc : Except EngineError (List String × List Condition)) pn =>
                match acc with
                | .error e => .error e
                | .ok (pp, pc) =>
                  match resolveOne roles fuel (name :: visited) pn with
                  | .error e => .error e
                  | .ok (qp, qc) => .ok (pp ++ qp, pc ++ qc))
              (Except.ok ([], [])) with
            | .error e => .error e
            | .ok (pp, pc) => .ok (r.permissions ++ pp, r.conditions ++ pc)
          else .ok (r.permissions, r.conditions)

/-- Modelled from the spec (§3, §9): a parent-reference path starting at
`name` revisits a role already on the path (within the given fuel). -/
def cyclicFrom (roles : List Role) : Nat → List String → String → Bool
  | 0, _, _ => true
  | fuel + 1, visited, name =>
    if visited.contains name then true
    else
      match findRole roles name with
      | none => false
      | some r =>
        match r.inheritance with
        | none => false
        | some inh =>
          inh.parent_roles.foldl
            (fun acc pn => acc || cyclicFrom roles fuel (name :: visited) pn)
            false

/-- The role parent graph of a policy's role list has a cycle: some role
starts a parent-reference path that revisits a role. -/
def hasCycle (roles : List Role) : Bool :=
  roles.any (fun r => cyclicFrom roles (roles.length + 1) [] r.name)

/-- Modelled from the spec (§4.1): `resolveRole(policy, requestedRoleName)`
expands inheritance into a flattened permission set and condition-block
list, failing with `InheritanceCycle` if the parent graph has a cycle and
`RoleNotFound` if the name is absent. -/
def resolveRole (p : Policy) (name : String) : Except EngineError ResolvedRole :=
  if hasCycle p.roles then .error .InheritanceCycle
  else
    match resolveOne p.roles (p.roles.length + 1) [] name with
    | .error e => .error e
    | .ok (pp, cc) => .ok ⟨pp, cc⟩

/-- Modelled from the spec (§4.3): the states of the approval workflow
state machine. -/
inductive RequestStatus where
  | submitted
  | pending_evaluation
  | auto_approved
  | pending_approval
  | approved
  | rejected
  | escalated
  | expired_unapproved
deriving DecidableEq, Repr

/-- Modelled from the spec (§3): the kind of one approver action. -/
inductive DecisionKind where
  | approve
  | reject
deriving DecidableEq, Repr

/-- Modelled from the spec (§3): one record per approver action, tagged
with the approval-chain step it decides. -/
structure ApprovalDecision where
  approver : String
  step : Nat
  kind : DecisionKind
  timestamp : Nat
deriving DecidableEq, Repr

/-- Modelled from the spec (§3, §4.3): the request's workflow state — its
status, the index of the current pending approval step, and the ordered
sequence of recorded decisions. -/
structure RequestState where
  status : RequestStatus
  currentStep : Nat
  decisions : List ApprovalDecision
deriving DecidableEq, Repr

/-- Modelled from the spec (§4.3, §7): record one approver decision.  A
decision for a step that already holds a recorded decision fails with
`DuplicateDecision`; a decision against a non-pending request or a step
other than the current one fails with `StaleApprovalStep`; a rejection
moves the request to terminal `rejected` without advancing the step
pointer; an approval advances the pointer, reaching terminal `approved`
only after the last approver of the chain (unanimous chain). -/
def submitDecision (wf : ApprovalWorkflow) (st : RequestState)
    (d : ApprovalDecision) : Except EngineError RequestState :=
  if st.decisions.any (fun e => e.step == d.step) then .error .DuplicateDecision
  else if st.status ≠ RequestStatus.pending_approval then .error .StaleApprovalStep
  else if d.step ≠ st.currentStep then .error .StaleApprovalStep
  else
    match wf.approvers.get? st.currentStep with
    | none => .error .StaleApprovalStep
    | some ap =>
      if d.approver ≠ ap.value then .error .StaleApprovalStep
      else
        match d.kind with
        | .reject =>
          .ok { st with status := .rejected, decisions := st.decisions ++ [d] }
        | .approve =>
          if st.currentStep + 1 < wf.approvers.length then
            .ok { st with status := .pending_approval,
                          currentStep := st.currentStep + 1,
                          decisions := st.decisions ++ [d] }
          else
            .ok { st with status := .approved,
                          currentStep := st.currentStep + 1,
                          decisions := st.decisions ++ [d] }

/-- Apply a decision, keeping the state unchanged when the submission is
refused (the engine returns the typed failure to the caller and commits
nothing). -/
def trySubmit (wf : ApprovalWorkflow) (st : RequestState)
    (d : ApprovalDecision) : RequestState :=
  match submitDecision wf st d with
  | .ok st' => st'
  | .error _ => st

/-- Apply a whole sequence of attempted decisions in order. -/
def runDecisions (wf : ApprovalWorkflow) (st : RequestState) :
    List ApprovalDecision → RequestState
  | [] => st
  | d :: rest => runDecisions wf (trySubmit wf st d) rest

/-- One auto-approval rule matches the request's attributes and the
requested duration is at most the rule's ceiling (spec §4.3). -/
def autoApproveMatches (rules : List AutoApproveRule) (a : RequestAttributes)
    (reqDur : Nat) : Bool :=
  rules.any (fun r =>
    matchOptS r.department a.department &&
    matchOptS r.data_sensitivity a.data_sensitivity &&
    decide (reqDur ≤ r.request_duration))

/-- Modelled from the spec (§4.3): entry of a request into the workflow.
The role is resolved and evaluated; a non-match short-circuits to
`rejected`; a matching auto-approve rule yields `auto_approved`;
otherwise `approval_required` sends the request to `pending_approval`
with the first approver as current step, and a policy that requires no
approval default-permits as `auto_approved`. -/
def submitRequest (p : Policy) (roleName : String) (a : RequestAttributes)
    (reqDur : Nat) (t : Nat) : Except EngineError RequestState :=
  match resolveRole p roleName with
  | .error e => .error e
  | .ok rr =>
    let ev := evaluate rr a t
    if ev.matched then
      if autoApproveMatches p.approval_workflow.auto_approve_conditions a reqDur then
        .ok { status := .auto_approved, currentStep := 0, decisions := [] }
      else if p.approval_workflow.approval_required then
        .ok { status := .pending_approval, currentStep := 0, decisions := [] }
      else
        .ok { status := .auto_approved, currentStep := 0, decisions := [] }
    else
      .ok { status := .rejected, currentStep := 0, decisions := [] }

/-- Modelled from the spec (§3): the materialized outcome of an approved
request, with times in minutes. -/
structure Grant where
  granted_at : Nat
  expires_at : Nat
  renewal_count : Nat
  duration : Nat
deriving DecidableEq, Repr

/-- Modelled from the spec (§3, §4.4): a fresh Grant at time `now` with
the policy's access duration: `expires_at = granted_at + duration` and a
zero renewal count. -/
def mkGrant (now dur : Nat) : Grant :=
  { granted_at := now, expires_at := now + dur, renewal_count := 0, duration := dur }

/-- Modelled from the spec (§4.4, `access_policies.txt` `renewal`): a
renewal at time `now` increments `renewal_count` and resets the grant
window; it is refused once `max_renewals` is reached. -/
def renewGrant (maxRenewals : Nat) (g : Grant) (now : Nat) : Option Grant :=
  if g.renewal_count < maxRenewals then
    some { granted_at := now, expires_at := now + g.duration,
           renewal_count := g.renewal_count + 1, duration := g.duration }
  else none

/-- Apply a sequence of renewal attempts; a refused renewal leaves the
grant unchanged. -/
def runRenewals (maxRenewals : Nat) (g : Grant) : List Nat → Grant
  | [] => g
  | now :: rest => runRenewals maxRenewals ((renewGrant maxRenewals g now).getD g) rest

/-- Modelled from the spec (§3): a Grant is created exactly from a
request in terminal `approved` state. -/
def grantForRequest (p : Policy) (st : RequestState) (now : Nat) : Option Grant :=
  if st.status = RequestStatus.approved then some (mkGrant now p.access_duration)
  else none

/-- Modelled from the spec (§3): one append-only audit record. -/
structure AuditEvent where
  entity_id : Nat
  event_type : String
  actor : String
  timestamp : Nat
deriving DecidableEq, Repr

/-- Modelled from the spec (§4.5): the audit store — its availability and
the append-only event sequence. -/
structure AuditStore where
  available : Bool
  events : List AuditEvent
deriving DecidableEq, Repr

/-- Modelled from the spec (§4.5): `record` appends one AuditEvent and
never fails silently — an unavailable store yields `AuditWriteFailed`. -/
def record (s : AuditStore) (e : AuditEvent) : Except EngineError AuditStore :=
  if s.available then .ok { s with events := s.events ++ [e] }
  else .error .AuditWriteFailed

/-- The engine's combined state for one request: the request's workflow
state together with the audit store. -/
structure EngineState where
  request : RequestState
  audit : AuditStore
deriving DecidableEq, Repr

/-- Human-readable name of a workflow status, used as the audit
`event_type` of the transition that entered it. -/
def statusName : RequestStatus → String
  | .submitted => "submitted"
  | .pending_evaluation => "pending_evaluation"
  | .auto_approved => "auto_approved"
  | .pending_approval => "pending_approval"
  | .approved => "approved"
  | .rejected => "rejected"
  | .escalated => "escalated"
  | .expired_unapproved => "expired_unapproved"

/-- Modelled from the spec (§4.5, §5): a decision transition with audit
durability as part of its atomicity — the request transition and the
audit append commit together, and an `AuditWriteFailed` aborts the whole
transition. -/
def submitDecisionAudited (wf : ApprovalWorkflow) (es : EngineState)
    (d : ApprovalDecision) : Except EngineError EngineState :=
  match submitDecision wf es.request d with
  | .error e => .error e
  | .ok req' =>
    match record es.audit ⟨0, statusName req'.status, d.approver, d.timestamp⟩ with
    | .error e => .error e
    | .ok audit' => .ok ⟨req', audit'⟩

/-- Apply an audited decision, keeping the engine state unchanged when
the transition is refused: nothing is committed on failure. -/
def trySubmitAudited (wf : ApprovalWorkflow) (es : EngineState)
    (d : ApprovalDecision) : EngineState :=
  match submitDecisionAudited wf es d with
  | .ok es' => es'
  | .error _ => es

/-- Modelled from the spec (§4.5, §5): commit an arbitrary entity
transition together with its audit record — the step's result is
committed only when the audit append for the event it produced is; an
unavailable store aborts the whole transition with `AuditWriteFailed`.
Audit writes are synchronous with the transition that produced them. -/
def auditedTransition {α : Type} (step : Except EngineError α)
    (ev : α → AuditEvent) (s : AuditStore) : Except EngineError (α × AuditStore) :=
  match step with
  | .error err => .error err
  | .ok x =>
    match record s (ev x) with
    | .error err => .error err
    | .ok s' => .ok (x, s')

/-- Apply an audited transition, keeping the prior entity state and the
prior audit store when the transition is refused: nothing is committed
on failure. -/
def tryAudited {α : Type} (prior : α) (step : Except EngineError α)
    (ev : α → AuditEvent) (s : AuditStore) : α × AuditStore :=
  match auditedTransition step ev s with
  | .ok (x, s') => (x, s')
  | .error _ => (prior, s)

/-- Modelled from the spec (§4.3, §4.5): a request's entry transition
(submission through evaluation into its first workflow state) with its
audit record committed atomically. -/
def submitRequestAudited (p : Policy) (roleName requester : String)
    (a : RequestAttributes) (reqDur t : Nat) (s : AuditStore) :
    Except EngineError (RequestState × AuditStore) :=
  auditedTransition (submitRequest p roleName a reqDur t)
    (fun st => ⟨0, statusName st.status, requester, t⟩) s

/-- Modelled from the spec (§3, §4.4, §4.5): the grant-creation
transition out of a terminal `approved` request, with its audit record
committed atomically; attempting it on a non-approved request is a
stale transition. -/
def createGrantAudited (p : Policy) (st : RequestState) (now : Nat)
    (s : AuditStore) : Except EngineError (Grant × AuditStore) :=
  auditedTransition
    (match grantForRequest p st now with
     | some g => Except.ok g
     | none => Except.error EngineError.StaleApprovalStep)
    (fun _ => ⟨0, "access_granted", "system", now⟩) s

/-- Modelled from the spec (§4.4): the two outcomes of the scheduler's
step for a grant whose expiry time has arrived. -/
inductive GrantTickOutcome where
  | renewed (g : Grant)
  | expired (g : Grant)
deriving DecidableEq, Repr

/-- Modelled from the spec (§4.4): at expiry, renew when `auto_renew`
holds and `max_renewals` is not reached, otherwise the grant expires
and a revocation intent is due. -/
def grantTick (autoRenew : Bool) (maxRenewals : Nat) (g : Grant) (now : Nat) :
    GrantTickOutcome :=
  if autoRenew then
    match renewGrant maxRenewals g now with
    | some g' => .renewed g'
    | none => .expired g
  else .expired g

/-- The audit `event_type` of a grant lifecycle transition. -/
def grantTickEventType : GrantTickOutcome → String
  | .renewed _ => "access_renewed"
  | .expired _ => "access_revoked"

/-- Modelled from the spec (§4.4, §4.5): the scheduler's expiry-time
grant transition (renewal or expiry/revocation) with its audit record
committed atomically. -/
def grantTickAudited (autoRenew : Bool) (maxRenewals : Nat) (g : Grant)
    (now : Nat) (s : AuditStore) :
    Except EngineError (GrantTickOutcome × AuditStore) :=
  auditedTransition (Except.ok (grantTick autoRenew maxRenewals g now))
    (fun o => ⟨0, grantTickEventType o, "system", now⟩) s

/-- A placeholder audit event family over a numeric entity state, used
to exercise the generic audited transition on a concrete input. -/
def noopEvent (n : Nat) : AuditEvent := ⟨0, "noop", "system", n⟩

/-- The condition block `{department: "sales"}` of the spec's round-trip
scenario (§8) and the `access_policy.yaml` example in
`problem5_breakdown.md`. -/
def salesCondition : Condition := { department := some "sales" }

/-- The round-trip policy of spec §8 and `access_policies.json`:
resource "sales-db", role `read_only` with permission SELECT and the
sales-department condition, approval required with the single approver
data-owner@company.com, access duration "30d" (43200 minutes). -/
def salesPolicy : Policy :=
  { resource := "sales-db"
    roles := [{ name := "read_only"
                permissions := ["SELECT"]
                conditions := [salesCondition]
                inheritance := none }]
    approval_workflow :=
      { approval_required := true
        approvers := [{ type := "user", value := "data-owner@company.com", order := 1 }]
        auto_approve_conditions := [] }
    access_duration := 43200
    max_renewals := 3
    enabled := true }

/-- The form state of `AccessRequestFormComponent` (README.md): the six
reactive form controls. -/
structure AccessRequestForm where
  requesterEmail : String
  resource : String
  serviceType : String
  accessLevel : String
  requestedDuration : String
  justification : String
deriving DecidableEq, Repr

/-- Simplified model of Angular's `Validators.email` (framework code, not
part of this repository): the value contains exactly one at-sign with a
non-empty local part before it and a non-empty domain after it. -/
def emailValid (s : String) : Bool :=
  let cs := s.toList
  (cs.count '@' == 1) && !(cs.head? == some '@') && !(cs.getLast? == some '@')

/-- The form group's validity (README.md, constructor of
`AccessRequestFormComponent`): every control is `Validators.required`,
the requester email additionally `Validators.email`, and the
justification additionally `Validators.minLength(10)`. -/
def formValid (f : AccessRequestForm) : Bool :=
  !f.requesterEmail.isEmpty && emailValid f.requesterEmail &&
  !f.resource.isEmpty &&
  !f.serviceType.isEmpty &&
  !f.accessLevel.isEmpty &&
  !f.requestedDuration.isEmpty &&
  !f.justification.isEmpty && decide (10 ≤ f.justification.length)

/-- The request body that `onSubmit` posts (README.md): exactly the six
backend API fields mapped from the form controls. -/
structure AccessRequestPayload where
  requester_email : String
  resource : String
  service_type : String
  access_level : String
  requested_duration : String
  justification : String
deriving DecidableEq, Repr

/-- The payload construction inside `onSubmit` (README.md): each backend
field is the corresponding form control's value. -/
def buildPayload (f : AccessRequestForm) : AccessRequestPayload :=
  { requester_email := f.requesterEmail
    resource := f.resource
    service_type := f.serviceType
    access_level := f.accessLevel
    requested_duration := f.requestedDuration
    justification := f.justification }

/-- `AccessRequestFormComponent.onSubmit` (README.md): the HTTP POST it
issues, as data — `some payload` when the form is valid, `none` (no
request at all) otherwise. -/
def onSubmit (f : AccessRequestForm) : Option AccessRequestPayload :=
  if formValid f then some (buildPayload f) else none

/-- The value of `isSubmitting` immediately after `onSubmit` runs its
synchronous part (README.md): set to true inside the valid branch, left
untouched otherwise. -/
def onSubmitIsSubmitting (f : AccessRequestForm) (isSubmitting : Bool) : Bool :=
  if formValid f then true else isSubmitting

/-- The approve PUT of `AccessRequestListComponent` (unnamed source
file): the query parameter it carries. -/
structure ApprovePutRequest where
  approver_email : String
deriving DecidableEq, Repr

/-- The reject PUT of `AccessRequestListComponent` (unnamed source
file): the query parameters it carries. -/
structure RejectPutRequest where
  rejector_email : String
  reason : String
deriving DecidableEq, Repr

/-- `AccessRequestListComponent.approve` (unnamed source file): `prompt`
returns `none` on cancel; a falsy (cancelled or empty) approver email
returns without issuing the PUT. -/
def approveAction (promptedEmail : Option String) : Option ApprovePutRequest :=
  match promptedEmail with
  | none => none
  | some e => if e.isEmpty then none else some { approver_email := e }

/-- `AccessRequestListComponent.reject` (unnamed source file): a falsy
rejector email returns before the reason is prompted; a falsy reason
returns before the PUT; otherwise the PUT carries both. -/
def rejectAction (promptedEmail promptedReason : Option String) :
    Option RejectPutRequest :=
  match promptedEmail with
  | none => none
  | some e =>
    if e.isEmpty then none
    else
      match promptedReason with
      | none => none
      | some r => if r.isEmpty then none else some { rejector_email := e, reason := r }

/-- A parent role used to exercise inheritance: plain SELECT viewer. -/
def viewerRole : Role :=
  { name := "viewer", permissions := ["SELECT"], conditions := [], inheritance := none }

/-- A child role inheriting the viewer's permissions
(`inherit_permissions = true`). -/
def analystRole : Role :=
  { name := "analyst", permissions := ["EXPORT"], conditions := [],
    inheritance := some ⟨["viewer"], true⟩ }

/-- A policy with one inheritance edge, used as a concrete instance of
the resolver contract. -/
def demoPolicy : Policy :=
  { resource := "sales-db"
    roles := [analystRole, viewerRole]
    approval_workflow :=
      { approval_required := true
        approvers := [{ type := "user", value := "data-owner@company.com", order := 1 }]
        auto_approve_conditions := [] }
    access_duration := 43200
    max_renewals := 3
    enabled := true }

/-- A policy whose two roles cite each other as parents: its role parent
graph has a cycle. -/
def cyclicPolicy : Policy :=
  { resource := "sales-db"
    roles := [{ name := "a", permissions := [], conditions := [],
                inheritance := some ⟨["b"], true⟩ },
              { name := "b", permissions := [], conditions := [],
                inheritance := some ⟨["a"], true⟩ }]
    approval_workflow :=
      { approval_required := true, approvers := [], auto_approve_conditions := [] }
    access_duration := 43200
    max_renewals := 3
    enabled := true }

theorem trySubmit_of_not_pending (wf : ApprovalWorkflow) (st : RequestState)
    (d : ApprovalDecision) (h : st.status ≠ RequestStatus.pending_approval) :
    trySubmit wf st d = st := by
  unfold trySubmit submitDecision
  by_cases h1 : (st.decisions.any (fun e => e.step == d.step)) = true
  · simp [h1]
  · simp [h1, h]

theorem runDecisions_of_not_pending (wf : ApprovalWorkflow) (ds : List ApprovalDecision)
    (st : RequestState) (h : st.status ≠ RequestStatus.pending_approval) :
    runDecisions wf st ds = st := by
  induction ds generalizing st with
  | nil => rfl
  | cons d rest ih =>
    unfold runDecisions
    rw [trySubmit_of_not_pending wf st d h, ih st h]

theorem submitDecision_reject_shape (wf : ApprovalWorkflow) (st st' : RequestState)
    (d : ApprovalDecision) (hok : submitDecision wf st d = Except.ok st')
    (hk : d.kind = DecisionKind.reject) :
    st'.status = RequestStatus.rejected ∧ st'.currentStep = st.currentStep ∧
    st'.decisions = st.decisions ++ [d] := by
  unfold submitDecision at hok
  repeat' split at hok
  all_goals simp_all
  all_goals (subst hok; simp)

theorem submitDecision_ok_decisions (wf : ApprovalWorkflow) (st st' : RequestState)
    (d : ApprovalDecision) (hok : submitDecision wf st d = Except.ok st') :
    st'.decisions = st.decisions ++ [d] ∧
    (∀ e ∈ st.decisions, (e.step == d.step) = false) := by
  unfold submitDecision at hok
  repeat' split at hok
  all_goals simp_all
  all_goals (subst hok; simp_all)

/-- C1: for every access request with an approver chain, once any single
approver records a rejection at any step, the request's state is
`rejected`, the step pointer never advances (no later approver is
consulted), and no sequence of further decision attempts ever moves the
request — in particular it never reaches `approved` and no Grant is
created for it. -/
theorem claim1_rejection_short_circuits (wf : ApprovalWorkflow) (st st' : RequestState)
    (d : ApprovalDecision) (rest : List ApprovalDecision) (p : Policy) (now : Nat)
    (hok : submitDecision wf st d = Except.ok st')
    (hk : d.kind = DecisionKind.reject) :
    st'.status = RequestStatus.rejected ∧
    st'.currentStep = st.currentStep ∧
    runDecisions wf st' rest = st' ∧
    (runDecisions wf st' rest).status = RequestStatus.rejected ∧
    (runDecisions wf st' rest).status ≠ RequestStatus.approved ∧
    grantForRequest p (runDecisions wf st' rest) now = none := by
  obtain ⟨h1, h2, h3⟩ := submitDecision_reject_shape wf st st' d hok hk
  have hnp : st'.status ≠ RequestStatus.pending_approval := by rw [h1]; simp
  have hrun : runDecisions wf st' rest = st' := runDecisions_of_not_pending wf rest st' hnp
  refine ⟨h1, h2, hrun, ?_, ?_, ?_⟩
  · rw [hrun, h1]
  · rw [hrun, h1]; simp
  · rw [hrun]; unfold grantForRequest; rw [h1]; simp

/-- Witness for C1: in the sales-db policy's single-approver chain, the
approver's rejection lands the request in `rejected`, and a later
approval attempt changes nothing. -/
theorem claim1_witness :
    submitDecision salesPolicy.approval_workflow
        ⟨RequestStatus.pending_approval, 0, []⟩
        ⟨"data-owner@company.com", 0, DecisionKind.reject, 5⟩ =
      Except.ok ⟨RequestStatus.rejected, 0,
        [⟨"data-owner@company.com", 0, DecisionKind.reject, 5⟩]⟩ ∧
    (⟨"data-owner@company.com", 0, DecisionKind.reject, 5⟩ : ApprovalDecision).kind =
      DecisionKind.reject ∧
    ((⟨RequestStatus.rejected, 0,
        [⟨"data-owner@company.com", 0, DecisionKind.reject, 5⟩]⟩ : RequestState).status =
       RequestStatus.rejected ∧
     (⟨RequestStatus.rejected, 0,
        [⟨"data-owner@company.com", 0, DecisionKind.reject, 5⟩]⟩ : RequestState).currentStep =
       (⟨RequestStatus.pending_approval, 0, []⟩ : RequestState).currentStep ∧
     runDecisions salesPolicy.approval_workflow
        ⟨RequestStatus.rejected, 0, [⟨"data-owner@company.com", 0, DecisionKind.reject, 5⟩]⟩
        [⟨"data-owner@company.com", 1, DecisionKind.approve, 6⟩] =
       ⟨RequestStatus.rejected, 0, [⟨"data-owner@company.com", 0, DecisionKind.reject, 5⟩]⟩ ∧
     (runDecisions salesPolicy.approval_workflow
        ⟨RequestStatus.rejected, 0, [⟨"data-owner@company.com", 0, DecisionKind.reject, 5⟩]⟩
        [⟨"data-owner@company.com", 1, DecisionKind.approve, 6⟩]).status =
       RequestStatus.rejected ∧
     (runDecisions salesPolicy.approval_workflow
        ⟨RequestStatus.rejected, 0, [⟨"data-owner@company.com", 0, DecisionKind.reject, 5⟩]⟩
        [⟨"data-owner@company.com", 1, DecisionKind.approve, 6⟩]).status ≠
       RequestStatus.approved ∧
     grantForRequest salesPolicy
        (runDecisions salesPolicy.approval_workflow
          ⟨RequestStatus.rejected, 0, [⟨"data-owner@company.com", 0, DecisionKind.reject, 5⟩]⟩
          [⟨"data-owner@company.com", 1, DecisionKind.approve, 6⟩]) 7 = none) :=
  ⟨rfl, rfl,
   claim1_rejection_short_circuits salesPolicy.approval_workflow
     ⟨RequestStatus.pending_approval, 0, []⟩
     ⟨RequestStatus.rejected, 0, [⟨"data-owner@company.com", 0, DecisionKind.reject, 5⟩]⟩
     ⟨"data-owner@company.com", 0, DecisionKind.reject, 5⟩
     [⟨"data-owner@company.com", 1, DecisionKind.approve, 6⟩]
     salesPolicy 7 rfl rfl⟩

/-- C5: a decision accepted for a pending step is recorded exactly once;
submitting the same decision again fails with `DuplicateDecision` and
leaves the stored decision sequence and the request's state unchanged. -/
theorem claim5_duplicate_decision (wf : ApprovalWorkflow) (st st1 : RequestState)
    (d : ApprovalDecision) (hok : submitDecision wf st d = Except.ok st1) :
    st1.decisions = st.decisions ++ [d] ∧
    d ∉ st.decisions ∧
    st1.decisions.count d = st.decisions.count d + 1 ∧
    submitDecision wf st1 d = Except.error EngineError.DuplicateDecision ∧
    trySubmit wf st1 d = st1 := by
  obtain ⟨hdec, hfresh⟩ := submitDecision_ok_decisions wf st st1 d hok
  have hnotmem : d ∉ st.decisions := by
    intro hmem
    have := hfresh d hmem
    simp at this
  have hcount : st1.decisions.count d = st.decisions.count d + 1 := by
    rw [hdec, List.count_append]
    simp
  have hdup : (st1.decisions.any (fun e => e.step == d.step)) = true := by
    rw [hdec]
    simp
  constructor
  · exact hdec
  constructor
  · exact hnotmem
  constructor
  · exact hcount
  constructor
  · unfold submitDecision
    simp [hdup]
  · unfold trySubmit submitDecision
    simp [hdup]

/-- Witness for C5: the sales-db approver's approval is recorded once and
its resubmission is refused with `DuplicateDecision`. -/
theorem claim5_witness :
    submitDecision salesPolicy.approval_workflow
        ⟨RequestStatus.pending_approval, 0, []⟩
        ⟨"data-owner@company.com", 0, DecisionKind.approve, 5⟩ =
      Except.ok ⟨RequestStatus.approved, 1,
        [⟨"data-owner@company.com", 0, DecisionKind.approve, 5⟩]⟩ ∧
    ((⟨RequestStatus.approved, 1,
        [⟨"data-owner@company.com", 0, DecisionKind.approve, 5⟩]⟩ : RequestState).decisions =
       ([] : List ApprovalDecision) ++ [⟨"data-owner@company.com", 0, DecisionKind.approve, 5⟩] ∧
     (⟨"data-owner@company.com", 0, DecisionKind.approve, 5⟩ : ApprovalDecision) ∉
       ([] : List ApprovalDecision) ∧
     (⟨RequestStatus.approved, 1,
        [⟨"data-owner@company.com", 0, DecisionKind.approve, 5⟩]⟩ : RequestState).decisions.count
         ⟨"data-owner@company.com", 0, DecisionKind.approve, 5⟩ =
       ([] : List ApprovalDecision).count ⟨"data-owner@company.com", 0, DecisionKind.approve, 5⟩ + 1 ∧
     submitDecision salesPolicy.approval_workflow
        ⟨RequestStatus.approved, 1, [⟨"data-owner@company.com", 0, DecisionKind.approve, 5⟩]⟩
        ⟨"data-owner@company.com", 0, DecisionKind.approve, 5⟩ =
       Except.error EngineError.DuplicateDecision ∧
     trySubmit salesPolicy.approval_workflow
        ⟨RequestStatus.approved, 1, [⟨"data-owner@company.com", 0, DecisionKind.approve, 5⟩]⟩
        ⟨"data-owner@company.com", 0, DecisionKind.approve, 5⟩ =
       ⟨RequestStatus.approved, 1, [⟨"data-owner@company.com", 0, DecisionKind.approve, 5⟩]⟩) :=
  ⟨rfl,
   claim5_duplicate_decision salesPolicy.approval_workflow
     ⟨RequestStatus.pending_approval, 0, []⟩
     ⟨RequestStatus.approved, 1, [⟨"data-owner@company.com", 0, DecisionKind.approve, 5⟩]⟩
     ⟨"data-owner@company.com", 0, DecisionKind.approve, 5⟩ rfl⟩

theorem runRenewals_inv (m : Nat) (renews : List Nat) (g : Grant)
    (h1 : g.expires_at = g.granted_at + g.duration)
    (h2 : g.renewal_count ≤ m) :
    (runRenewals m g renews).expires_at =
      (runRenewals m g renews).granted_at + (runRenewals m g renews).duration ∧
    (runRenewals m g renews).renewal_count ≤ m ∧
    (runRenewals m g renews).duration = g.duration := by
  induction renews generalizing g with
  | nil => exact ⟨h1, h2, rfl⟩
  | cons now rest ih =>
    unfold runRenewals renewGrant
    by_cases hlt : g.renewal_count < m
    · simpa [hlt] using ih
        { granted_at := now, expires_at := now + g.duration,
          renewal_count := g.renewal_count + 1, duration := g.duration }
        rfl (Nat.succ_le_of_lt hlt)
    · simpa [hlt] using ih g h1 h2

/-- C2: every Grant reachable from creation through any sequence of
renewal attempts keeps `expires_at = granted_at + access_duration` and
never exceeds `max_renewals` renewals; each accepted renewal increments
`renewal_count` by exactly one and resets the expiry window from the
renewal time. -/
theorem claim2_grant_lifecycle (m t dur now : Nat) (renews : List Nat) (g g' : Grant)
    (hrenew : renewGrant m g now = some g') :
    (runRenewals m (mkGrant t dur) renews).expires_at =
      (runRenewals m (mkGrant t dur) renews).granted_at +
      (runRenewals m (mkGrant t dur) renews).duration ∧
    (runRenewals m (mkGrant t dur) renews).duration = dur ∧
    (runRenewals m (mkGrant t dur) renews).renewal_count ≤ m ∧
    (mkGrant t dur).expires_at = (mkGrant t dur).granted_at + dur ∧
    g'.renewal_count = g.renewal_count + 1 ∧
    g'.granted_at = now ∧
    g'.expires_at = now + g.duration ∧
    g'.duration = g.duration ∧
    g'.renewal_count ≤ m := by
  have hbase : (mkGrant t dur).expires_at = (mkGrant t dur).granted_at + (mkGrant t dur).duration := rfl
  have hcount : (mkGrant t dur).renewal_count ≤ m := Nat.zero_le m
  obtain ⟨i1, i2, i3⟩ := runRenewals_inv m renews (mkGrant t dur) hbase hcount
  have hlt : g.renewal_count < m := by
    by_contra hge
    unfold renewGrant at hrenew
    simp [hge] at hrenew
  have hg' : g' = { granted_at := now, expires_at := now + g.duration,
                    renewal_count := g.renewal_count + 1, duration := g.duration } := by
    unfold renewGrant at hrenew
    simp [hlt] at hrenew
    exact hrenew.symm
  subst hg'
  exact ⟨by simpa using i1, by simpa [mkGrant] using i3, i2, hbase, rfl, rfl, rfl, rfl,
    Nat.succ_le_of_lt hlt⟩

/-- Witness for C2: a 30-day grant renewed twice under a cap of three
keeps the window invariant; the first renewal at expiry increments the
count to one and expires 30 days later. -/
theorem claim2_witness :
    renewGrant 3 (mkGrant 0 43200) 43200 =
      some ⟨43200, 86400, 1, 43200⟩ ∧
    ((runRenewals 3 (mkGrant 0 43200) [43200, 86400]).expires_at =
      (runRenewals 3 (mkGrant 0 43200) [43200, 86400]).granted_at +
      (runRenewals 3 (mkGrant 0 43200) [43200, 86400]).duration ∧
    (runRenewals 3 (mkGrant 0 43200) [43200, 86400]).duration = 43200 ∧
    (runRenewals 3 (mkGrant 0 43200) [43200, 86400]).renewal_count ≤ 3 ∧
    (mkGrant 0 43200).expires_at = (mkGrant 0 43200).granted_at + 43200 ∧
    (⟨43200, 86400, 1, 43200⟩ : Grant).renewal_count = (mkGrant 0 43200).renewal_count + 1 ∧
    (⟨43200, 86400, 1, 43200⟩ : Grant).granted_at = 43200 ∧
    (⟨43200, 86400, 1, 43200⟩ : Grant).expires_at = 43200 + (mkGrant 0 43200).duration ∧
    (⟨43200, 86400, 1, 43200⟩ : Grant).duration = (mkGrant 0 43200).duration ∧
    (⟨43200, 86400, 1, 43200⟩ : Grant).renewal_count ≤ 3) :=
  ⟨rfl,
   claim2_grant_lifecycle 3 0 43200 43200 [43200, 86400]
     (mkGrant 0 43200) ⟨43200, 86400, 1, 43200⟩ rfl⟩

theorem submitDecisionAudited_spec (wf : ApprovalWorkflow) (es : EngineState)
    (d : ApprovalDecision) :
    (es.audit.available = false → trySubmitAudited wf es d = es) ∧
    (es.audit.available = false →
      ∀ req', submitDecision wf es.request d = Except.ok req' →
        submitDecisionAudited wf es d = Except.error EngineError.AuditWriteFailed) ∧
    (∀ es', submitDecisionAudited wf es d = Except.ok es' →
      es'.audit.events = es.audit.events ++
        [⟨0, statusName es'.request.status, d.approver, d.timestamp⟩] ∧
      es'.audit.available = true ∧
      submitDecision wf es.request d = Except.ok es'.request) := by
  refine ⟨?_, ?_, ?_⟩
  · intro hun
    unfold trySubmitAudited submitDecisionAudited record
    cases hsd : submitDecision wf es.request d with
    | error e => rfl
    | ok req' => simp [hun]
  · intro hun req' hok
    unfold submitDecisionAudited record
    rw [hok]
    simp [hun]
  · intro es' hok
    unfold submitDecisionAudited at hok
    cases hsd : submitDecision wf es.request d with
    | error e => rw [hsd] at hok; exact absurd hok (by simp)
    | ok req' =>
      rw [hsd] at hok
      unfold record at hok
      by_cases hav : es.audit.available = true
      · simp only [hav, if_true] at hok
        injection hok with h
        subst h
        exact ⟨rfl, rfl, by simp [hsd]⟩
      · simp only [Bool.not_eq_true] at hav
        simp [hav] at hok

theorem auditedTransition_spec {α : Type} (step : Except EngineError α)
    (ev : α → AuditEvent) (s : AuditStore) :
    (s.available = false → ∀ x, step = Except.ok x →
      auditedTransition step ev s = Except.error EngineError.AuditWriteFailed) ∧
    (∀ x s', auditedTransition step ev s = Except.ok (x, s') →
      step = Except.ok x ∧ s'.available = true ∧ s'.events = s.events ++ [ev x]) ∧
    (s.available = false → ∀ prior, tryAudited prior step ev s = (prior, s)) := by
  refine ⟨?_, ?_, ?_⟩
  · intro hun x hok
    subst hok
    unfold auditedTransition record
    simp [hun]
  · intro x s' hok
    unfold auditedTransition at hok
    cases hstep : step with
    | error e => rw [hstep] at hok; cases hok
    | ok y =>
      rw [hstep] at hok
      unfold record at hok
      by_cases hav : s.available = true
      · simp only [hav, if_true] at hok
        injection hok with hok
        simp only [Prod.mk.injEq] at hok
        obtain ⟨hxy, hs⟩ := hok
        subst hxy
        subst hs
        exact ⟨rfl, rfl, rfl⟩
      · simp only [Bool.not_eq_true] at hav
        simp [hav] at hok
  · intro hun prior
    unfold tryAudited auditedTransition record
    cases hstep : step with
    | error e => rfl
    | ok y => simp [hun]

/-- C6: audit durability is part of every transition's atomicity, for
request transitions (entry into the workflow and approval decisions)
and grant transitions (creation, renewal, expiry/revocation) alike:
when the audit store is unavailable the triggering transition itself
fails with `AuditWriteFailed` and commits nothing — the entity's state
is unchanged — and no transition is committed without its audit record
committed; the last conjunct states the commits-nothing law for every
audited transition of any entity. -/
theorem claim6_audit_atomicity (wf : ApprovalWorkflow) (es : EngineState)
    (d : ApprovalDecision) (p : Policy) (roleName requester : String)
    (a : RequestAttributes) (reqDur t now : Nat) (rst : RequestState)
    (s : AuditStore) (autoRenew : Bool) (maxRenewals : Nat) (g : Grant)
    {α : Type} (prior : α) (step : Except EngineError α) (ev : α → AuditEvent) :
    (es.audit.available = false → trySubmitAudited wf es d = es) ∧
    (es.audit.available = false →
      ∀ req', submitDecision wf es.request d = Except.ok req' →
        submitDecisionAudited wf es d = Except.error EngineError.AuditWriteFailed) ∧
    (∀ es', submitDecisionAudited wf es d = Except.ok es' →
      es'.audit.events = es.audit.events ++
        [⟨0, statusName es'.request.status, d.approver, d.timestamp⟩] ∧
      es'.audit.available = true ∧
      submitDecision wf es.request d = Except.ok es'.request) ∧
    (s.available = false →
      ∀ st0, submitRequest p roleName a reqDur t = Except.ok st0 →
        submitRequestAudited p roleName requester a reqDur t s =
          Except.error EngineError.AuditWriteFailed) ∧
    (∀ st0 s', submitRequestAudited p roleName requester a reqDur t s =
        Except.ok (st0, s') →
      submitRequest p roleName a reqDur t = Except.ok st0 ∧
      s'.events = s.events ++ [⟨0, statusName st0.status, requester, t⟩]) ∧
    (s.available = false →
      ∀ g0, grantForRequest p rst now = some g0 →
        createGrantAudited p rst now s = Except.error EngineError.AuditWriteFailed) ∧
    (∀ g0 s', createGrantAudited p rst now s = Except.ok (g0, s') →
      grantForRequest p rst now = some g0 ∧
      s'.events = s.events ++ [⟨0, "access_granted", "system", now⟩]) ∧
    (s.available = false →
      grantTickAudited autoRenew maxRenewals g now s =
        Except.error EngineError.AuditWriteFailed) ∧
    (∀ o s', grantTickAudited autoRenew maxRenewals g now s = Except.ok (o, s') →
      o = grantTick autoRenew maxRenewals g now ∧
      s'.events = s.events ++ [⟨0, grantTickEventType o, "system", now⟩]) ∧
    (s.available = false → tryAudited prior step ev s = (prior, s)) := by
  obtain ⟨hd1, hd2, hd3⟩ := submitDecisionAudited_spec wf es d
  refine ⟨hd1, hd2, hd3, ?_, ?_, ?_, ?_, ?_, ?_, ?_⟩
  · intro hun st0 hok
    unfold submitRequestAudited
    exact (auditedTransition_spec (submitRequest p roleName a reqDur t)
      (fun st => ⟨0, statusName st.status, requester, t⟩) s).1 hun st0 hok
  · intro st0 s' hok
    unfold submitRequestAudited at hok
    obtain ⟨h1, _, h3⟩ := ((auditedTransition_spec (submitRequest p roleName a reqDur t)
      (fun st => ⟨0, statusName st.status, requester, t⟩) s).2.1) st0 s' hok
    exact ⟨h1, h3⟩
  · intro hun g0 hg
    unfold createGrantAudited
    refine (auditedTransition_spec _
      (fun _ => ⟨0, "access_granted", "system", now⟩) s).1 hun g0 ?_
    rw [hg]
  · intro g0 s' hok
    unfold createGrantAudited at hok
    obtain ⟨h1, _, h3⟩ := ((auditedTransition_spec _
      (fun _ => ⟨0, "access_granted", "system", now⟩) s).2.1) g0 s' hok
    refine ⟨?_, h3⟩
    cases hg : grantForRequest p rst now with
    | none => rw [hg] at h1; cases h1
    | some g1 => rw [hg] at h1; injection h1 with h1; rw [h1]
  · intro hun
    unfold grantTickAudited
    exact (auditedTransition_spec _
      (fun o => ⟨0, grantTickEventType o, "system", now⟩) s).1 hun _ rfl
  · intro o s' hok
    unfold grantTickAudited at hok
    obtain ⟨h1, _, h3⟩ := ((auditedTransition_spec _
      (fun o => ⟨0, grantTickEventType o, "system", now⟩) s).2.1) o s' hok
    injection h1 with h1
    exact ⟨h1.symm, h3⟩
  · intro hun
    exact (auditedTransition_spec step ev s).2.2 hun prior

/-- Witness for C6: with the audit store down, the sales-db approver's
otherwise-valid approval, the sales request's entry transition, the
grant creation out of the approved request, and the scheduler's
expiry-time grant tick all abort with `AuditWriteFailed` and commit
nothing. -/
theorem claim6_witness :
    ((⟨⟨RequestStatus.pending_approval, 0, []⟩, ⟨false, []⟩⟩ : EngineState).audit.available =
        false →
      trySubmitAudited salesPolicy.approval_workflow
        ⟨⟨RequestStatus.pending_approval, 0, []⟩, ⟨false, []⟩⟩
        ⟨"data-owner@company.com", 0, DecisionKind.approve, 5⟩ =
      ⟨⟨RequestStatus.pending_approval, 0, []⟩, ⟨false, []⟩⟩) ∧
    ((⟨⟨RequestStatus.pending_approval, 0, []⟩, ⟨false, []⟩⟩ : EngineState).audit.available =
        false →
      ∀ req', submitDecision salesPolicy.approval_workflow
          (⟨⟨RequestStatus.pending_approval, 0, []⟩, ⟨false, []⟩⟩ : EngineState).request
          ⟨"data-owner@company.com", 0, DecisionKind.approve, 5⟩ = Except.ok req' →
        submitDecisionAudited salesPolicy.approval_workflow
          ⟨⟨RequestStatus.pending_approval, 0, []⟩, ⟨false, []⟩⟩
          ⟨"data-owner@company.com", 0, DecisionKind.approve, 5⟩ =
        Except.error EngineError.AuditWriteFailed) ∧
    (∀ es', submitDecisionAudited salesPolicy.approval_workflow
        ⟨⟨RequestStatus.pending_approval, 0, []⟩, ⟨false, []⟩⟩
        ⟨"data-owner@company.com", 0, DecisionKind.approve, 5⟩ = Except.ok es' →
      es'.audit.events =
        (⟨⟨RequestStatus.pending_approval, 0, []⟩, ⟨false, []⟩⟩ : EngineState).audit.events ++
        [⟨0, statusName es'.request.status, "data-owner@company.com", 5⟩] ∧
      es'.audit.available = true ∧
      submitDecision salesPolicy.approval_workflow
        (⟨⟨RequestStatus.pending_approval, 0, []⟩, ⟨false, []⟩⟩ : EngineState).request
        ⟨"data-owner@company.com", 0, DecisionKind.approve, 5⟩ = Except.ok es'.request) ∧
    ((⟨false, []⟩ : AuditStore).available = false →
      ∀ st0, submitRequest salesPolicy "read_only"
          ⟨"sales", "low", "hq", "senior", "full_time", "basic", 0⟩ 43200 0 =
          Except.ok st0 →
        submitRequestAudited salesPolicy "read_only" "alice@company.com"
          ⟨"sales", "low", "hq", "senior", "full_time", "basic", 0⟩ 43200 0 ⟨false, []⟩ =
        Except.error EngineError.AuditWriteFailed) ∧
    (∀ st0 s', submitRequestAudited salesPolicy "read_only" "alice@company.com"
        ⟨"sales", "low", "hq", "senior", "full_time", "basic", 0⟩ 43200 0 ⟨false, []⟩ =
        Except.ok (st0, s') →
      submitRequest salesPolicy "read_only"
        ⟨"sales", "low", "hq", "senior", "full_time", "basic", 0⟩ 43200 0 = Except.ok st0 ∧
      s'.events = (⟨false, []⟩ : AuditStore).events ++
        [⟨0, statusName st0.status, "alice@company.com", 0⟩]) ∧
    ((⟨false, []⟩ : AuditStore).available = false →
      ∀ g0, grantForRequest salesPolicy ⟨RequestStatus.approved, 1, []⟩ 100 = some g0 →
        createGrantAudited salesPolicy ⟨RequestStatus.approved, 1, []⟩ 100 ⟨false, []⟩ =
        Except.error EngineError.AuditWriteFailed) ∧
    (∀ g0 s', createGrantAudited salesPolicy ⟨RequestStatus.approved, 1, []⟩ 100
        ⟨false, []⟩ = Except.ok (g0, s') →
      grantForRequest salesPolicy ⟨RequestStatus.approved, 1, []⟩ 100 = some g0 ∧
      s'.events = (⟨false, []⟩ : AuditStore).events ++
        [⟨0, "access_granted", "system", 100⟩]) ∧
    ((⟨false, []⟩ : AuditStore).available = false →
      grantTickAudited true 3 (mkGrant 0 43200) 100 ⟨false, []⟩ =
        Except.error EngineError.AuditWriteFailed) ∧
    (∀ o s', grantTickAudited true 3 (mkGrant 0 43200) 100 ⟨false, []⟩ =
        Except.ok (o, s') →
      o = grantTick true 3 (mkGrant 0 43200) 100 ∧
      s'.events = (⟨false, []⟩ : AuditStore).events ++
        [⟨0, grantTickEventType o, "system", 100⟩]) ∧
    ((⟨false, []⟩ : AuditStore).available = false →
      tryAudited 0 (Except.ok 1) noopEvent ⟨false, []⟩ = (0, ⟨false, []⟩)) :=
  claim6_audit_atomicity salesPolicy.approval_workflow
    ⟨⟨RequestStatus.pending_approval, 0, []⟩, ⟨false, []⟩⟩
    ⟨"data-owner@company.com", 0, DecisionKind.approve, 5⟩
    salesPolicy "read_only" "alice@company.com"
    ⟨"sales", "low", "hq", "senior", "full_time", "basic", 0⟩ 43200 0 100
    ⟨RequestStatus.approved, 1, []⟩ ⟨false, []⟩ true 3 (mkGrant 0 43200)
    (0 : Nat) (Except.ok 1 : Except EngineError Nat) noopEvent


theorem resolveOne_step_shape (roles : List Role) (name : String) (r : Role)
    (fuel : Nat) (pp : List String) (cc : List Condition)
    (hfind : findRole roles name = some r)
    (hro : resolveOne roles (fuel + 1) [] name = Except.ok (pp, cc)) :
    (∃ qq qc, pp = r.permissions ++ qq ∧ cc = r.conditions ++ qc) ∧
    ((r.inheritance = none ∨
        ∃ inh, r.inheritance = some inh ∧ inh.inherit_permissions = false) →
      pp = r.permissions ∧ cc = r.conditions) := by
  simp only [resolveOne, hfind] at hro
  simp only [List.contains, List.elem_nil, Bool.false_eq_true, if_false] at hro
  split at hro
  · simp only [Except.ok.injEq, Prod.mk.injEq] at hro
    obtain ⟨h1, h2⟩ := hro
    exact ⟨⟨[], [], by simp [← h1], by simp [← h2]⟩, fun _ => ⟨h1.symm, h2.symm⟩⟩
  · rename_i inh heq
    split at hro
    · rename_i hip
      split at hro
      · simp at hro
      · rename_i qq qc hfold
        simp only [Except.ok.injEq, Prod.mk.injEq] at hro
        obtain ⟨h1, h2⟩ := hro
        refine ⟨⟨qq, qc, h1.symm, h2.symm⟩, ?_⟩
        intro hcase
        rcases hcase with hnone | ⟨inh', hinh', hip'⟩
        · rw [heq] at hnone; cases hnone
        · rw [heq] at hinh'
          injection hinh' with hinh'
          subst hinh'
          rw [hip] at hip'
          cases hip'
    · simp only [Except.ok.injEq, Prod.mk.injEq] at hro
      obtain ⟨h1, h2⟩ := hro
      exact ⟨⟨[], [], by simp [← h1], by simp [← h2]⟩, fun _ => ⟨h1.symm, h2.symm⟩⟩

/-- C3: whenever `resolveRole` succeeds for a role present in the policy,
the flattened permission set contains every one of the role's own
declared permissions, and equals exactly the role's own declared
permissions when the role inherits nothing or has
`inherit_permissions = false`; on a policy whose role parent graph has a
cycle, `resolveRole` fails with `InheritanceCycle`. -/
theorem claim3_resolve_role (p : Policy) (name : String) (r : Role) (res : ResolvedRole)
    (q : Policy) (n : String)
    (hfind : findRole p.roles name = some r)
    (hok : resolveRole p name = Except.ok res)
    (hcyc : hasCycle q.roles = true) :
    (∀ perm ∈ r.permissions, perm ∈ res.permissions) ∧
    ((r.inheritance = none ∨
        ∃ inh, r.inheritance = some inh ∧ inh.inherit_permissions = false) →
      res.permissions = r.permissions) ∧
    resolveRole q n = Except.error EngineError.InheritanceCycle := by
  have hthird : resolveRole q n = Except.error EngineError.InheritanceCycle := by
    unfold resolveRole
    simp [hcyc]
  have hmain : (∃ qq qc, res.permissions = r.permissions ++ qq ∧
      res.conditions = r.conditions ++ qc) ∧
      ((r.inheritance = none ∨
          ∃ inh, r.inheritance = some inh ∧ inh.inherit_permissions = false) →
        res.permissions = r.permissions ∧ res.conditions = r.conditions) := by
    unfold resolveRole at hok
    cases hcb : hasCycle p.roles with
    | true => rw [hcb] at hok; simp at hok
    | false =>
      rw [hcb] at hok
      simp only [Bool.false_eq_true, if_false] at hok
      cases hro : resolveOne p.roles (p.roles.length + 1) [] name with
      | error e => rw [hro] at hok; simp at hok
      | ok pr =>
        rw [hro] at hok
        obtain ⟨pp, cc⟩ := pr
        injection hok with hok
        subst hok
        exact resolveOne_step_shape p.roles name r p.roles.length pp cc hfind hro
  obtain ⟨⟨qq, qc, hperm, _⟩, hexact⟩ := hmain
  refine ⟨?_, fun hcase => (hexact hcase).1, hthird⟩
  intro x hx
  rw [hperm]
  exact List.mem_append_left _ hx

/-- Witness for C3: resolving the inheriting `analyst` role of the demo
policy yields EXPORT followed by the inherited SELECT — a superset of its
own declared permissions — and the cyclic two-role policy is refused with
`InheritanceCycle`. -/
theorem claim3_witness :
    findRole demoPolicy.roles "analyst" = some analystRole ∧
    resolveRole demoPolicy "analyst" = Except.ok ⟨["EXPORT", "SELECT"], []⟩ ∧
    hasCycle cyclicPolicy.roles = true ∧
    ((∀ perm ∈ analystRole.permissions,
        perm ∈ (⟨["EXPORT", "SELECT"], []⟩ : ResolvedRole).permissions) ∧
     ((analystRole.inheritance = none ∨
         ∃ inh, analystRole.inheritance = some inh ∧ inh.inherit_permissions = false) →
       (⟨["EXPORT", "SELECT"], []⟩ : ResolvedRole).permissions = analystRole.permissions) ∧
     resolveRole cyclicPolicy "a" = Except.error EngineError.InheritanceCycle) :=
  ⟨rfl, rfl, rfl,
   claim3_resolve_role demoPolicy "analyst" analystRole ⟨["EXPORT", "SELECT"], []⟩
     cyclicPolicy "a" rfl rfl rfl⟩

theorem firstMatchIdx_none_iff (a : RequestAttributes) (t : Nat) (cs : List Condition) :
    firstMatchIdx a t cs = none ↔ ∀ c ∈ cs, matchesCondition c a t = false := by
  induction cs with
  | nil => simp [firstMatchIdx]
  | cons c rest ih =>
    cases hc : matchesCondition c a t with
    | true => simp [firstMatchIdx, hc]
    | false => simp [firstMatchIdx, hc, ih]

theorem firstMatchIdx_some_spec (a : RequestAttributes) (t : Nat) (cs : List Condition)
    (i : Nat) (h : firstMatchIdx a t cs = some i) :
    ∃ hlt : i < cs.length,
      matchesCondition (cs.get ⟨i, hlt⟩) a t = true ∧
      ∀ j, ∀ hj : j < i, matchesCondition (cs.get ⟨j, Nat.lt_trans hj hlt⟩) a t = false := by
  induction cs generalizing i with
  | nil => simp [firstMatchIdx] at h
  | cons c rest ih =>
    cases hc : matchesCondition c a t with
    | true =>
      simp only [firstMatchIdx, hc, if_true, Option.some.injEq] at h
      subst h
      exact ⟨Nat.succ_pos _, hc, fun j hj => absurd hj (Nat.not_lt_zero j)⟩
    | false =>
      simp only [firstMatchIdx, hc, Bool.false_eq_true, if_false] at h
      rcases Option.map_eq_some'.mp h with ⟨i', hi', hsum⟩
      subst hsum
      obtain ⟨hlt, hm, hprev⟩ := ih i' hi'
      refine ⟨Nat.succ_lt_succ hlt, hm, ?_⟩
      intro j hj
      match j with
      | 0 => simpa using hc
      | j' + 1 => exact hprev j' (Nat.lt_of_succ_lt_succ hj)

/-- C4: `evaluate` returns `matched = true` unconditionally on a role
with zero condition blocks; otherwise it returns `matched = false`
exactly when no block matches; and whenever it reports a matched block
index, that block matches and every earlier block in declaration order
does not. -/
theorem claim4_evaluate_first_match (rr : ResolvedRole) (a : RequestAttributes) (t : Nat) :
    (rr.conditions = [] → evaluate rr a t = ⟨true, none, false, false⟩) ∧
    ((evaluate rr a t).matched = false ↔
      rr.conditions ≠ [] ∧ ∀ c ∈ rr.conditions, matchesCondition c a t = false) ∧
    (∀ i, (evaluate rr a t).matchedBlockIndex = some i →
      (evaluate rr a t).matched = true ∧
      ∃ hlt : i < rr.conditions.length,
        matchesCondition (rr.conditions.get ⟨i, hlt⟩) a t = true ∧
        ∀ j, ∀ hj : j < i,
          matchesCondition (rr.conditions.get ⟨j, Nat.lt_trans hj hlt⟩) a t = false) := by
  obtain ⟨perms, conds⟩ := rr
  cases conds with
  | nil =>
    refine ⟨fun _ => rfl, ?_, ?_⟩
    · simp [evaluate]
    · intro i hi
      simp [evaluate] at hi
  | cons c rest =>
    cases hfm : firstMatchIdx a t (c :: rest) with
    | some k =>
      have heval : evaluate ⟨perms, c :: rest⟩ a t =
          ⟨true, some k, ((c :: rest).getD k default).mfa_required.getD false,
            ((c :: rest).getD k default).justification_required.getD false⟩ := by
        simp [evaluate, hfm]
      obtain ⟨hlt, hm, hprev⟩ := firstMatchIdx_some_spec a t (c :: rest) k hfm
      refine ⟨?_, ?_, ?_⟩
      · intro hnil; cases hnil
      · rw [heval]
        simp only [ne_eq]
        constructor
        · intro hfalse; cases hfalse
        · rintro ⟨-, hall⟩
          have := hall ((c :: rest).get ⟨k, hlt⟩) (List.get_mem _ _ hlt)
          rw [hm] at this
          cases this
      · intro i hi
        rw [heval] at hi ⊢
        simp only [Option.some.injEq] at hi
        subst hi
        exact ⟨rfl, hlt, hm, hprev⟩
    | none =>
      have heval : evaluate ⟨perms, c :: rest⟩ a t = ⟨false, none, false, false⟩ := by
        simp [evaluate, hfm]
      have hall := (firstMatchIdx_none_iff a t (c :: rest)).mp hfm
      refine ⟨?_, ?_, ?_⟩
      · intro hnil; cases hnil
      · rw [heval]
        simpa using hall
      · intro i hi
        rw [heval] at hi
        cases hi

/-- Witness for C4: against attributes of a sales-department requester,
a role whose first block requires engineering and whose second requires
sales evaluates to the second block, index 1. -/
theorem claim4_witness :
    ((⟨["SELECT"], [{ department := some "engineering" }, { department := some "sales" }]⟩ :
        ResolvedRole).conditions = [] →
      evaluate ⟨["SELECT"], [{ department := some "engineering" }, { department := some "sales" }]⟩
        ⟨"sales", "low", "hq", "senior", "full_time", "basic", 0⟩ 5 =
        ⟨true, none, false, false⟩) ∧
    ((evaluate ⟨["SELECT"], [{ department := some "engineering" }, { department := some "sales" }]⟩
        ⟨"sales", "low", "hq", "senior", "full_time", "basic", 0⟩ 5).matched = false ↔
      (⟨["SELECT"], [{ department := some "engineering" }, { department := some "sales" }]⟩ :
          ResolvedRole).conditions ≠ [] ∧
      ∀ c ∈ (⟨["SELECT"], [{ department := some "engineering" }, { department := some "sales" }]⟩ :
          ResolvedRole).conditions,
        matchesCondition c ⟨"sales", "low", "hq", "senior", "full_time", "basic", 0⟩ 5 = false) ∧
    (∀ i, (evaluate ⟨["SELECT"], [{ department := some "engineering" }, { department := some "sales" }]⟩
        ⟨"sales", "low", "hq", "senior", "full_time", "basic", 0⟩ 5).matchedBlockIndex = some i →
      (evaluate ⟨["SELECT"], [{ department := some "engineering" }, { department := some "sales" }]⟩
        ⟨"sales", "low", "hq", "senior", "full_time", "basic", 0⟩ 5).matched = true ∧
      ∃ hlt : i < (⟨["SELECT"], [{ department := some "engineering" }, { department := some "sales" }]⟩ :
          ResolvedRole).conditions.length,
        matchesCondition
          ((⟨["SELECT"], [{ department := some "engineering" }, { department := some "sales" }]⟩ :
            ResolvedRole).conditions.get ⟨i, hlt⟩)
          ⟨"sales", "low", "hq", "senior", "full_time", "basic", 0⟩ 5 = true ∧
        ∀ j, ∀ hj : j < i,
          matchesCondition
            ((⟨["SELECT"], [{ department := some "engineering" }, { department := some "sales" }]⟩ :
              ResolvedRole).conditions.get ⟨j, Nat.lt_trans hj hlt⟩)
            ⟨"sales", "low", "hq", "senior", "full_time", "basic", 0⟩ 5 = false) :=
  claim4_evaluate_first_match
    ⟨["SELECT"], [{ department := some "engineering" }, { department := some "sales" }]⟩
    ⟨"sales", "low", "hq", "senior", "full_time", "basic", 0⟩ 5

/-- C7: under the sales-db policy (role `read_only`, condition
department = sales, approval required by data-owner@company.com, access
duration 30 days = 43200 minutes), every request whose requester is in
the sales department is evaluated as matched and enters
`pending_approval`; that approver's approval reaches `approved` and
yields a Grant expiring exactly 30 days after `granted_at`. -/
theorem claim7_sales_round_trip (a : RequestAttributes) (t reqDur t2 : Nat)
    (h : a.department = "sales") :
    submitRequest salesPolicy "read_only" a reqDur t =
      Except.ok ⟨RequestStatus.pending_approval, 0, []⟩ ∧
    submitDecision salesPolicy.approval_workflow ⟨RequestStatus.pending_approval, 0, []⟩
        ⟨"data-owner@company.com", 0, DecisionKind.approve, t2⟩ =
      Except.ok ⟨RequestStatus.approved, 1,
        [⟨"data-owner@company.com", 0, DecisionKind.approve, t2⟩]⟩ ∧
    grantForRequest salesPolicy
        ⟨RequestStatus.approved, 1, [⟨"data-owner@company.com", 0, DecisionKind.approve, t2⟩]⟩
        t2 =
      some ⟨t2, t2 + 43200, 0, 43200⟩ ∧
    (mkGrant t2 salesPolicy.access_duration).expires_at =
      (mkGrant t2 salesPolicy.access_duration).granted_at + 43200 := by
  refine ⟨?_, rfl, rfl, rfl⟩
  have hmatch : matchesCondition salesCondition a t = true := by
    simp [matchesCondition, salesCondition, matchOptS, h]
  unfold submitRequest
  rw [show resolveRole salesPolicy "read_only" =
      Except.ok ⟨["SELECT"], [salesCondition]⟩ from rfl]
  simp [evaluate, firstMatchIdx, hmatch, autoApproveMatches, salesPolicy]

/-- Witness for C7: the concrete sales-department requester goes through
the whole round trip. -/
theorem claim7_witness :
    (⟨"sales", "low", "hq", "senior", "full_time", "basic", 0⟩ :
        RequestAttributes).department = "sales" ∧
    (submitRequest salesPolicy "read_only"
        ⟨"sales", "low", "hq", "senior", "full_time", "basic", 0⟩ 43200 0 =
      Except.ok ⟨RequestStatus.pending_approval, 0, []⟩ ∧
    submitDecision salesPolicy.approval_workflow ⟨RequestStatus.pending_approval, 0, []⟩
        ⟨"data-owner@company.com", 0, DecisionKind.approve, 100⟩ =
      Except.ok ⟨RequestStatus.approved, 1,
        [⟨"data-owner@company.com", 0, DecisionKind.approve, 100⟩]⟩ ∧
    grantForRequest salesPolicy
        ⟨RequestStatus.approved, 1, [⟨"data-owner@company.com", 0, DecisionKind.approve, 100⟩]⟩
        100 =
      some ⟨100, 100 + 43200, 0, 43200⟩ ∧
    (mkGrant 100 salesPolicy.access_duration).expires_at =
      (mkGrant 100 salesPolicy.access_duration).granted_at + 43200) :=
  ⟨rfl,
   claim7_sales_round_trip ⟨"sales", "low", "hq", "senior", "full_time", "basic", 0⟩
     0 43200 100 rfl⟩

/-- C8: `AccessRequestFormComponent.onSubmit` posts nothing while the
form is invalid — whenever any of the six controls is empty, the
requester email is malformed, or the justification is shorter than 10
characters, no HTTP request is issued and `isSubmitting` stays false. -/
theorem claim8_onSubmit_guard (f : AccessRequestForm)
    (h : f.requesterEmail.isEmpty = true ∨ f.resource.isEmpty = true ∨
         f.serviceType.isEmpty = true ∨ f.accessLevel.isEmpty = true ∨
         f.requestedDuration.isEmpty = true ∨ f.justification.isEmpty = true ∨
         emailValid f.requesterEmail = false ∨ f.justification.length < 10) :
    onSubmit f = none ∧ onSubmitIsSubmitting f false = false := by
  have hval : formValid f = false := by
    unfold formValid
    rcases h with h | h | h | h | h | h | h | h
    · simp [h]
    · simp [h]
    · simp [h]
    · simp [h]
    · simp [h]
    · simp [h]
    · simp [h]
    · have hh : ¬ (10 ≤ f.justification.length) := by omega
      simp [hh]
  exact ⟨by simp [onSubmit, hval], by simp [onSubmitIsSubmitting, hval]⟩

/-- Witness for C8: a form whose resource control is empty is not
submitted. -/
theorem claim8_witness :
    ((⟨"alice@company.com", "", "cloudsql", "read_only", "30d",
        "quarterly reporting needs"⟩ : AccessRequestForm).requesterEmail.isEmpty = true ∨
     (⟨"alice@company.com", "", "cloudsql", "read_only", "30d",
        "quarterly reporting needs"⟩ : AccessRequestForm).resource.isEmpty = true ∨
     (⟨"alice@company.com", "", "cloudsql", "read_only", "30d",
        "quarterly reporting needs"⟩ : AccessRequestForm).serviceType.isEmpty = true ∨
     (⟨"alice@company.com", "", "cloudsql", "read_only", "30d",
        "quarterly reporting needs"⟩ : AccessRequestForm).accessLevel.isEmpty = true ∨
     (⟨"alice@company.com", "", "cloudsql", "read_only", "30d",
        "quarterly reporting needs"⟩ : AccessRequestForm).requestedDuration.isEmpty = true ∨
     (⟨"alice@company.com", "", "cloudsql", "read_only", "30d",
        "quarterly reporting needs"⟩ : AccessRequestForm).justification.isEmpty = true ∨
     emailValid (⟨"alice@company.com", "", "cloudsql", "read_only", "30d",
        "quarterly reporting needs"⟩ : AccessRequestForm).requesterEmail = false ∨
     (⟨"alice@company.com", "", "cloudsql", "read_only", "30d",
        "quarterly reporting needs"⟩ : AccessRequestForm).justification.length < 10) ∧
    (onSubmit ⟨"alice@company.com", "", "cloudsql", "read_only", "30d",
        "quarterly reporting needs"⟩ = none ∧
     onSubmitIsSubmitting ⟨"alice@company.com", "", "cloudsql", "read_only", "30d",
        "quarterly reporting needs"⟩ false = false) :=
  ⟨Or.inr (Or.inl (by decide)),
   claim8_onSubmit_guard
     ⟨"alice@company.com", "", "cloudsql", "read_only", "30d", "quarterly reporting needs"⟩
     (Or.inr (Or.inl (by decide)))⟩

/-- C10: on a valid form, the posted payload is exactly the six backend
fields, each equal to the corresponding control's value — the client
attaches no submission timestamp and no resolved policy/role snapshot
(the payload type has no other fields). -/
theorem claim10_payload_exact (f : AccessRequestForm) (h : formValid f = true) :
    onSubmit f = some ⟨f.requesterEmail, f.resource, f.serviceType, f.accessLevel,
      f.requestedDuration, f.justification⟩ := by
  simp [onSubmit, h, buildPayload]

/-- Witness for C10: a fully valid form posts exactly its six control
values. -/
theorem claim10_witness :
    formValid ⟨"alice@company.com", "sales-db", "cloudsql", "read_only", "30d",
      "quarterly reporting needs"⟩ = true ∧
    onSubmit ⟨"alice@company.com", "sales-db", "cloudsql", "read_only", "30d",
      "quarterly reporting needs"⟩ =
      some ⟨"alice@company.com", "sales-db", "cloudsql", "read_only", "30d",
        "quarterly reporting needs"⟩ :=
  ⟨by decide,
   claim10_payload_exact
     ⟨"alice@company.com", "sales-db", "cloudsql", "read_only", "30d",
       "quarterly reporting needs"⟩ (by decide)⟩

/-- C9: `AccessRequestListComponent.approve` issues its PUT only with a
non-empty actor email, `reject` only with a non-empty actor email and a
non-empty reason; a cancelled or empty prompt issues no request at all,
so every rejection sent to the backend carries an actor identity and a
reason. -/
theorem claim9_prompt_guards (p q : Option String) :
    (∀ ar, approveAction p = some ar → ar.approver_email.isEmpty = false) ∧
    (∀ rr, rejectAction p q = some rr →
      rr.rejector_email.isEmpty = false ∧ rr.reason.isEmpty = false) ∧
    ((p = none ∨ p = some "") → approveAction p = none ∧ rejectAction p q = none) ∧
    ((q = none ∨ q = some "") → rejectAction p q = none) := by
  refine ⟨?_, ?_, ?_, ?_⟩
  · intro ar har
    cases p with
    | none => simp [approveAction] at har
    | some e =>
      simp only [approveAction] at har
      by_cases he : e.isEmpty = true
      · rw [if_pos he] at har; cases har
      · rw [if_neg he] at har
        injection har with har
        subst har
        simpa using he
  · intro rr hrr
    cases p with
    | none => simp [rejectAction] at hrr
    | some e =>
      simp only [rejectAction] at hrr
      by_cases he : e.isEmpty = true
      · rw [if_pos he] at hrr; cases hrr
      · rw [if_neg he] at hrr
        cases q with
        | none => cases hrr
        | some r =>
          have hrr' : (if r.isEmpty = true then none
              else some { rejector_email := e, reason := r }) = some rr := hrr
          by_cases hr : r.isEmpty = true
          · rw [if_pos hr] at hrr'; cases hrr'
          · rw [if_neg hr] at hrr'
            injection hrr' with hrr'
            subst hrr'
            exact ⟨by simpa using he, by simpa using hr⟩
  · intro hp
    cases hp with
    | inl h1 => subst h1; exact ⟨rfl, rfl⟩
    | inr h1 => subst h1; exact ⟨rfl, rfl⟩
  · intro hq
    cases p with
    | none =>
      cases hq with
      | inl h1 => subst h1; rfl
      | inr h1 => subst h1; rfl
    | some e =>
      by_cases he : e.isEmpty = true
      · cases hq with
        | inl h1 => subst h1; simp only [rejectAction]; rw [if_pos he]
        | inr h1 => subst h1; simp only [rejectAction]; rw [if_pos he]
      · cases hq with
        | inl h1 => subst h1; simp [rejectAction, he]
        | inr h1 => subst h1; simp [rejectAction, he]; rfl

/-- Witness for C9: with both prompts answered non-empty, the guards of
approve and reject hold at that concrete input. -/
theorem claim9_witness :
    (∀ ar, approveAction (some "boss@company.com") = some ar →
      ar.approver_email.isEmpty = false) ∧
    (∀ rr, rejectAction (some "boss@company.com") (some "missing approval evidence") = some rr →
      rr.rejector_email.isEmpty = false ∧ rr.reason.isEmpty = false) ∧
    ((some "boss@company.com" = (none : Option String) ∨
        some "boss@company.com" = some "") →
      approveAction (some "boss@company.com") = none ∧
      rejectAction (some "boss@company.com") (some "missing approval evidence") = none) ∧
    ((some "missing approval evidence" = (none : Option String) ∨
        some "missing approval evidence" = some "") →
      rejectAction (some "boss@company.com") (some "missing approval evidence") = none) :=
  claim9_prompt_guards (some "boss@company.com") (some "missing approval evidence")
